import Mathlib

/-!
Verification of the request-broker / worker-pool / serialization-codec core of
the lean-python-bridge repository, against its natural-language specification.

The Python sources embedded here are:
  * `src/python/src/codec.py`    — `SerializationCodec` (format selection,
    tagged serialize/deserialize, JSON/MessagePack bodies, fallback logic);
  * `src/python/src/validation.py` — `validate_matrix_model` and the two
    JSON-schema documents;
  * `src/python/src/server.py`   — `WorkerPool.submit_request`, the worker
    thread body (`_worker_thread` / `_process_request`) and the broker's
    `_handle_frontend` dispatch step.

Modelling conventions:
  * Python values that can appear in this pipeline are the inductive `Value`
    (JSON scalars, floats, strings, lists, tuples, dicts with string keys).
    Python floats are `PyFloat`: the three IEEE-754 non-finite values are
    symbolic (`nan`, `inf`, `ninf`) and finite floats carry an exact rational.
    All finite floats that actually flow through the claims are integers, on
    which binary64 arithmetic is exact, so `Rat` arithmetic is faithful there.
  * Byte strings are `List Nat` (each element < 256 for real bytes); the
    UTF-8 encoder/decoder below implements RFC 3629 exactly, which is what
    CPython's `bytes.decode("utf-8")` / `str.encode("utf-8")` do.
  * Exceptions are `Except String` values; the string is `str(e)` where a
    theorem depends on it, and an abbreviated marker otherwise.
  * Functions that recurse through `Value` (a nested inductive) are defined
    in `mutual` blocks by well-founded recursion; parsers recurse on an
    explicit fuel that is amply larger than the input length.
  * Wall-clock readings (`time.time()`) are passed in as explicit rational
    parameters; `id(self)` is passed as a natural number.
-/

/-- A Python float as it occurs in this system: the three non-finite IEEE-754
values are symbolic, finite values are exact rationals. -/
inductive PyFloat where
  | nan
  | inf
  | ninf
  | finite (q : Rat)
deriving Repr

/-- A Python value of the shapes that flow through the codec and the server:
JSON scalars, floats, strings, lists, tuples and string-keyed dicts.
Dicts are ordered association lists, matching CPython insertion order. -/
inductive Value where
  | null
  | bool (b : Bool)
  | int (n : Int)
  | float (f : PyFloat)
  | str (s : String)
  | list (xs : List Value)
  | tuple (xs : List Value)
  | dict (kvs : List (String × Value))
deriving Repr

/-- First-match lookup in an ordered dict (keys are unique in every dict the
model builds, so this is CPython `dict.__getitem__` membership order). -/
def lookupKey : List (String × Value) → String → Option Value
  | [], _ => none
  | (k0, v0) :: rest, k => if k0 = k then some v0 else lookupKey rest k

/-- CPython `d[k] = v`: replace in place if the key exists, else append. -/
def dictSet : List (String × Value) → String → Value → List (String × Value)
  | [], k, x => [(k, x)]
  | (k0, v0) :: rest, k, x =>
    if k0 = k then (k0, x) :: rest else (k0, v0) :: dictSet rest k x

/-- `resp[k] = v` on a `Value` known to be a dict (all call sites are). -/
def dictAssign (v : Value) (key : String) (x : Value) : Value :=
  match v with
  | .dict kvs => .dict (dictSet kvs key x)
  | other => other

/-- Lookup of a key in a `Value` that is a dict. -/
def lookupEntry (v : Value) (key : String) : Option Value :=
  match v with
  | .dict kvs => lookupKey kvs key
  | _ => none

/-! ### UTF-8 (RFC 3629, exactly CPython's strict codec) -/

/-- UTF-8 bytes of one Unicode scalar value. -/
def utf8EncodeChar (c : Char) : List Nat :=
  let n := c.toNat
  if n < 0x80 then [n]
  else if n < 0x800 then [0xC0 + n / 64, 0x80 + n % 64]
  else if n < 0x10000 then [0xE0 + n / 4096, 0x80 + n / 64 % 64, 0x80 + n % 64]
  else [0xF0 + n / 262144, 0x80 + n / 4096 % 64, 0x80 + n / 64 % 64, 0x80 + n % 64]

/-- `str.encode("utf-8")`. -/
def utf8Encode (s : String) : List Nat :=
  s.data.foldr (fun c acc => utf8EncodeChar c ++ acc) []

/-- Is `b` a UTF-8 continuation byte? -/
def utf8Cont (b : Nat) : Bool := 0x80 ≤ b && b ≤ 0xBF

/-- Strict UTF-8 decoding of a byte list: rejects lone lead/continuation
bytes, overlong forms, surrogates and code points above U+10FFFF, exactly as
CPython's `bytes.decode("utf-8")` does (which raises `UnicodeDecodeError`). -/
def utf8DecodeAux : List Nat → Option (List Char)
  | [] => some []
  | b :: rest =>
    if b < 0x80 then (utf8DecodeAux rest).map (fun cs => Char.ofNat b :: cs)
    else if b < 0xC2 then none
    else if b ≤ 0xDF then
      match rest with
      | c1 :: r =>
        if utf8Cont c1 then
          (utf8DecodeAux r).map (fun cs => Char.ofNat ((b - 0xC0) * 64 + (c1 - 0x80)) :: cs)
        else none
      | [] => none
    else if b ≤ 0xEF then
      match rest with
      | c1 :: c2 :: r =>
        let lo1 := if b = 0xE0 then 0xA0 else 0x80
        let hi1 := if b = 0xED then 0x9F else 0xBF
        if lo1 ≤ c1 && c1 ≤ hi1 && utf8Cont c2 then
          (utf8DecodeAux r).map (fun cs =>
            Char.ofNat ((b - 0xE0) * 4096 + (c1 - 0x80) * 64 + (c2 - 0x80)) :: cs)
        else none
      | _ => none
    else if b ≤ 0xF4 then
      match rest with
      | c1 :: c2 :: c3 :: r =>
        let lo1 := if b = 0xF0 then 0x90 else 0x80
        let hi1 := if b = 0xF4 then 0x8F else 0xBF
        if lo1 ≤ c1 && c1 ≤ hi1 && utf8Cont c2 && utf8Cont c3 then
          (utf8DecodeAux r).map (fun cs =>
            Char.ofNat ((b - 0xF0) * 262144 + (c1 - 0x80) * 4096 + (c2 - 0x80) * 64 + (c3 - 0x80)) :: cs)
        else none
      | _ => none
    else none

/-- `bytes.decode("utf-8")`, `none` when CPython raises `UnicodeDecodeError`. -/
def utf8Decode (bs : List Nat) : Option String :=
  (utf8DecodeAux bs).map fun cs => String.mk cs

/-! ### JSON encoding (`json.dumps(data, default=..., separators=(",", ":"))`)

CPython's `json.dumps` consults the `default=` hook only for objects its
encoder cannot serialize natively.  Every value of the `Value` domain is
natively serializable (floats included: with the default `allow_nan=True`
the encoder emits the bare tokens `NaN`, `Infinity`, `-Infinity`), so the
`json_serializer` hook of `codec.py` is never invoked and does not appear in
the model.  Strings are escaped with `ensure_ascii=True` (the default). -/

/-- Opening brace character, kept as a named constant. -/
def lbraceCh : Char := Char.ofNat 123

/-- Closing brace character, kept as a named constant. -/
def rbraceCh : Char := Char.ofNat 125

/-- Lower-case hex digit. -/
def hexDigitCh (n : Nat) : Char :=
  if n < 10 then Char.ofNat (48 + n) else Char.ofNat (87 + n)

/-- Four lower-case hex digits, as in CPython's `\uXXXX` escapes. -/
def hex4 (n : Nat) : String :=
  String.mk [hexDigitCh (n / 4096 % 16), hexDigitCh (n / 256 % 16),
             hexDigitCh (n / 16 % 16), hexDigitCh (n % 16)]

/-- `json.dumps` escaping of a single character with `ensure_ascii=True`:
printable ASCII except quote and backslash is literal, the short escapes are
used where they exist, everything else becomes `\uXXXX` (a surrogate pair
above U+FFFF). -/
def escapeJsonChar (c : Char) : String :=
  let n := c.toNat
  if c = '\"' then "\\\""
  else if c = '\\' then "\\\\"
  else if n = 8 then "\\b"
  else if n = 9 then "\\t"
  else if n = 10 then "\\n"
  else if n = 12 then "\\f"
  else if n = 13 then "\\r"
  else if n < 0x20 then "\\u" ++ hex4 n
  else if n < 0x7F then String.singleton c
  else if n < 0x10000 then "\\u" ++ hex4 n
  else
    "\\u" ++ hex4 (0xD800 + (n - 0x10000) / 1024) ++ "\\u" ++ hex4 (0xDC00 + (n - 0x10000) % 1024)

/-- A JSON string literal for `s`. -/
def quoteJson (s : String) : String :=
  "\"" ++ s.data.foldr (fun c acc => escapeJsonChar c ++ acc) "" ++ "\""

/-- The text `json.dumps` emits for a float.  Non-finite floats become the
bare tokens (`allow_nan=True` is the CPython default).  Finite floats use
`repr`; every finite float serialized anywhere in this development is
integral, where `repr` is exactly `<int>.0`.  The non-integral branch is an
explicit marker: no value with a non-integral float reaches the encoder in
any theorem below. -/
def floatLit : PyFloat → String
  | .nan => "NaN"
  | .inf => "Infinity"
  | .ninf => "-Infinity"
  | .finite q =>
    if q.den = 1 then toString q.num ++ ".0"
    else toString q.num ++ "div" ++ toString q.den

mutual
/-- `json.dumps(v, separators=(",", ":"))` on the `Value` domain. -/
def jsonEncode : Value → String
  | .null => "null"
  | .bool b => if b then "true" else "false"
  | .int n => toString n
  | .float f => floatLit f
  | .str s => quoteJson s
  | .list xs => "[" ++ jsonEncodeList xs ++ "]"
  | .tuple xs => "[" ++ jsonEncodeList xs ++ "]"
  | .dict kvs =>
    String.singleton lbraceCh ++ jsonEncodeEntries kvs ++ String.singleton rbraceCh

/-- Comma-separated encodings of array elements. -/
def jsonEncodeList : List Value → String
  | [] => ""
  | [v] => jsonEncode v
  | v :: rest => jsonEncode v ++ "," ++ jsonEncodeList rest

/-- Comma-separated `"key":value` member encodings. -/
def jsonEncodeEntries : List (String × Value) → String
  | [] => ""
  | [(k, v)] => quoteJson k ++ ":" ++ jsonEncode v
  | (k, v) :: rest => quoteJson k ++ ":" ++ jsonEncode v ++ "," ++ jsonEncodeEntries rest
end

/-! ### JSON parsing (`json.loads`)

A faithful model of CPython's `json.loads` on text: the RFC 8259 grammar plus
the CPython extensions `NaN`, `Infinity`, `-Infinity`.  Numbers with a
fraction or exponent are kept as exact rationals (CPython rounds them to
binary64; every number any theorem feeds through the parser is an integer,
where the two agree).  Lone-surrogate `\uXXXX` escapes, which CPython
tolerates, are rejected here because Lean's `Char` has no surrogate code
points; no claim exercises them. -/

/-- JSON whitespace (space, tab, newline, carriage return). -/
def isJsonWs (c : Char) : Bool := c = ' ' || c = '\t' || c = '\n' || c = '\r'

/-- Drop leading JSON whitespace. -/
def skipWs : List Char → List Char
  | c :: cs => if isJsonWs c then skipWs cs else c :: cs
  | [] => []

/-- ASCII digit test. -/
def isDigitCh (c : Char) : Bool := '0' ≤ c && c ≤ '9'

/-- Split a maximal run of digits off the front. -/
def takeDigits : List Char → List Char × List Char
  | [] => ([], [])
  | c :: cs =>
    if isDigitCh c then
      let p := takeDigits cs
      (c :: p.1, p.2)
    else ([], c :: cs)

/-- Value of a digit run. -/
def digitsToNat (ds : List Char) : Nat :=
  ds.foldl (fun a c => a * 10 + (c.toNat - 48)) 0

/-- Hex digit value. -/
def hexVal (c : Char) : Option Nat :=
  if '0' ≤ c ∧ c ≤ '9' then some (c.toNat - 48)
  else if 'a' ≤ c ∧ c ≤ 'f' then some (c.toNat - 87)
  else if 'A' ≤ c ∧ c ≤ 'F' then some (c.toNat - 55)
  else none

/-- Four hex digits, as in a `\uXXXX` escape. -/
def parseHex4 : List Char → Option (Nat × List Char)
  | a :: b :: c :: d :: r =>
    match hexVal a, hexVal b, hexVal c, hexVal d with
    | some x, some y, some z, some w => some (x * 4096 + y * 256 + z * 16 + w, r)
    | _, _, _, _ => none
  | _ => none

/-- Body of a JSON string literal after the opening quote: returns the
decoded characters and the input after the closing quote.  `strict=True`
(the default), so raw control characters are rejected. -/
def parseStringBody : Nat → List Char → Option (List Char × List Char)
  | 0, _ => none
  | fuel + 1, cs =>
    match cs with
    | [] => none
    | c :: r =>
      if c = '\"' then some ([], r)
      else if c = '\\' then
        match r with
        | e :: r2 =>
          if e = '\"' ∨ e = '\\' ∨ e = '/' then
            (parseStringBody fuel r2).map (fun p => (e :: p.1, p.2))
          else if e = 'b' then
            (parseStringBody fuel r2).map (fun p => (Char.ofNat 8 :: p.1, p.2))
          else if e = 'f' then
            (parseStringBody fuel r2).map (fun p => (Char.ofNat 12 :: p.1, p.2))
          else if e = 'n' then
            (parseStringBody fuel r2).map (fun p => (Char.ofNat 10 :: p.1, p.2))
          else if e = 'r' then
            (parseStringBody fuel r2).map (fun p => (Char.ofNat 13 :: p.1, p.2))
          else if e = 't' then
            (parseStringBody fuel r2).map (fun p => (Char.ofNat 9 :: p.1, p.2))
          else if e = 'u' then
            match parseHex4 r2 with
            | some (n, r3) =>
              if 0xD800 ≤ n ∧ n ≤ 0xDBFF then
                match r3 with
                | b1 :: b2 :: r4 =>
                  if b1 = '\\' ∧ b2 = 'u' then
                    match parseHex4 r4 with
                    | some (m, r5) =>
                      if 0xDC00 ≤ m ∧ m ≤ 0xDFFF then
                        (parseStringBody fuel r5).map (fun p =>
                          (Char.ofNat (0x10000 + (n - 0xD800) * 1024 + (m - 0xDC00)) :: p.1, p.2))
                      else none
                    | none => none
                  else none
                | _ => none
              else if 0xDC00 ≤ n ∧ n ≤ 0xDFFF then none
              else (parseStringBody fuel r3).map (fun p => (Char.ofNat n :: p.1, p.2))
            | none => none
          else none
        | [] => none
      else if c.toNat < 0x20 then none
      else (parseStringBody fuel r).map (fun p => (c :: p.1, p.2))

/-- One numeric token, mirroring the `json` module's number regex
`-?(0|[1-9]\d*)(\.\d+)?([eE][+-]?\d+)?` with backtracking: a bare int stays
`int`, fraction/exponent make it a float. -/
def parseNumberTok (cs : List Char) : Option (Value × List Char) :=
  let sp : Bool × List Char :=
    match cs with
    | c :: r => if c = '-' then (true, r) else (false, cs)
    | [] => (false, cs)
  let neg := sp.1
  match sp.2 with
  | c :: r =>
    if isDigitCh c then
      let ip : List Char × List Char :=
        if c = '0' then ([c], r)
        else
          let p := takeDigits r
          (c :: p.1, p.2)
      let fr : List Char × List Char :=
        match ip.2 with
        | d :: r2 =>
          if d = '.' then
            let p := takeDigits r2
            if p.1 = [] then ([], ip.2) else (p.1, p.2)
          else ([], ip.2)
        | [] => ([], ip.2)
      let ex : Option (Bool × List Char) × List Char :=
        match fr.2 with
        | e :: r2 =>
          if e = 'e' ∨ e = 'E' then
            match r2 with
            | s :: r3 =>
              if s = '+' then
                let p := takeDigits r3
                if p.1 = [] then (none, fr.2) else (some (false, p.1), p.2)
              else if s = '-' then
                let p := takeDigits r3
                if p.1 = [] then (none, fr.2) else (some (true, p.1), p.2)
              else
                let p := takeDigits r2
                if p.1 = [] then (none, fr.2) else (some (false, p.1), p.2)
            | [] => (none, fr.2)
          else (none, fr.2)
        | [] => (none, fr.2)
      match fr.1, ex.1 with
      | [], none =>
        let m : Int := (digitsToNat ip.1 : Int)
        some (Value.int (if neg then -m else m), ip.2)
      | fracDs, expPart =>
        let mant : Int := (digitsToNat (ip.1 ++ fracDs) : Int)
        let mantS : Int := if neg then -mant else mant
        let e10 : Int :=
          (match expPart with
           | none => 0
           | some (esgn, eds) =>
             if esgn then -(digitsToNat eds : Int) else (digitsToNat eds : Int)) -
          (fracDs.length : Int)
        some (Value.float (.finite ((mantS : Rat) * (10 : Rat) ^ e10)), ex.2)
    else none
  | [] => none

mutual
/-- One JSON value starting at the head of the input (no leading
whitespace), as CPython's `_scan_once`: strings, objects, arrays, the three
keyword literals, the three non-finite float tokens, then numbers. -/
def parseVal : Nat → List Char → Option (Value × List Char)
  | 0, _ => none
  | fuel + 1, cs =>
    match cs with
    | [] => none
    | c :: r =>
      if c = '\"' then
        (parseStringBody (r.length + 1) r).map (fun p => (Value.str (String.mk p.1), p.2))
      else if c = lbraceCh then parseMembers fuel (skipWs r) true []
      else if c = '[' then parseElems fuel (skipWs r) true []
      else if c = 'n' then
        match r with
        | 'u' :: 'l' :: 'l' :: r2 => some (Value.null, r2)
        | _ => none
      else if c = 't' then
        match r with
        | 'r' :: 'u' :: 'e' :: r2 => some (Value.bool true, r2)
        | _ => none
      else if c = 'f' then
        match r with
        | 'a' :: 'l' :: 's' :: 'e' :: r2 => some (Value.bool false, r2)
        | _ => none
      else if c = 'N' then
        match r with
        | 'a' :: 'N' :: r2 => some (Value.float .nan, r2)
        | _ => none
      else if c = 'I' then
        match r with
        | 'n' :: 'f' :: 'i' :: 'n' :: 'i' :: 't' :: 'y' :: r2 => some (Value.float .inf, r2)
        | _ => none
      else if c = '-' then
        match parseNumberTok cs with
        | some p => some p
        | none =>
          match r with
          | 'I' :: 'n' :: 'f' :: 'i' :: 'n' :: 'i' :: 't' :: 'y' :: r2 =>
            some (Value.float .ninf, r2)
          | _ => none
      else parseNumberTok cs
termination_by structural fuel _ => fuel

/-- Object members after the opening brace (whitespace already skipped);
`first` is true before any member has been read.  Duplicate keys follow
CPython dict semantics: last value wins, first position kept. -/
def parseMembers : Nat → List Char → Bool → List (String × Value) →
    Option (Value × List Char)
  | 0, _, _, _ => none
  | fuel + 1, cs, first, acc =>
    match cs with
    | [] => none
    | c :: r =>
      if first ∧ c = rbraceCh then some (Value.dict [], r)
      else if c = '\"' then
        match parseStringBody (r.length + 1) r with
        | some (kcs, r2) =>
          match skipWs r2 with
          | ':' :: r3 =>
            match parseVal fuel (skipWs r3) with
            | some (v, r4) =>
              let acc2 := dictSet acc (String.mk kcs) v
              match skipWs r4 with
              | ',' :: r5 => parseMembers fuel (skipWs r5) false acc2
              | d :: r5 => if d = rbraceCh then some (Value.dict acc2, r5) else none
              | [] => none
            | none => none
          | _ => none
        | none => none
      else none
termination_by structural fuel _ _ _ => fuel

/-- Array elements after the opening bracket (whitespace already skipped). -/
def parseElems : Nat → List Char → Bool → List Value → Option (Value × List Char)
  | 0, _, _, _ => none
  | fuel + 1, cs, first, acc =>
    match cs with
    | [] => none
    | c :: _ =>
      if first ∧ c = ']' then
        match cs with
        | _ :: r => some (Value.list acc.reverse, r)
        | [] => none
      else
        match parseVal fuel cs with
        | some (v, r2) =>
          match skipWs r2 with
          | ',' :: r3 => parseElems fuel (skipWs r3) false (v :: acc)
          | ']' :: r3 => some (Value.list (v :: acc).reverse, r3)
          | _ => none
        | none => none
termination_by structural fuel _ _ _ => fuel
end

/-- `json.loads(s)`: parse one value, allow trailing whitespace only
("Extra data" otherwise).  The fuel `2 * length + 8` is ample: every two
nested recursive calls consume at least one input character. -/
def parseJson (s : String) : Option Value :=
  match parseVal (2 * s.length + 8) (skipWs s.data) with
  | some (v, rest) => if skipWs rest = [] then some v else none
  | none => none

/-! ### The codec's `object_hook` (`_deserialize_json`)

`json.loads(..., object_hook=json_hook)` calls the hook on every completed
object, bottom-up.  The hook of `codec.py` replaces the *string* values
`"NaN"`, `"Infinity"`, `"-Infinity"` found directly inside a dict by the
corresponding non-finite floats.  Applying it post-order after parsing is
equivalent, since the hook only rewrites string-typed leaves of a dict. -/

/-- The rewrite `json_hook` performs on one dict value. -/
def hookString (v : Value) : Value :=
  match v with
  | .str s =>
    if s = "NaN" then .float .nan
    else if s = "Infinity" then .float .inf
    else if s = "-Infinity" then .float .ninf
    else v
  | _ => v

/-- Apply `hookString` to the immediate values of a dict's entries. -/
def hookOwnEntries (kvs : List (String × Value)) : List (String × Value) :=
  kvs.map (fun kv => (kv.1, hookString kv.2))

mutual
/-- Post-order application of `json_hook` to every dict in a value. -/
def applyHook : Value → Value
  | .list xs => .list (applyHookList xs)
  | .tuple xs => .tuple (applyHookList xs)
  | .dict kvs => .dict (hookOwnEntries (applyHookEntries kvs))
  | v => v

/-- `applyHook` on array elements. -/
def applyHookList : List Value → List Value
  | [] => []
  | v :: rest => applyHook v :: applyHookList rest

/-- `applyHook` on dict entry values. -/
def applyHookEntries : List (String × Value) → List (String × Value)
  | [] => []
  | (k, v) :: rest => (k, applyHook v) :: applyHookEntries rest
end

/-! ### MessagePack (`msgpack.packb(data, use_bin_type=True, strict_types=True)`)

Modelled from the msgpack-python library contract, which is not part of this
repository: with `strict_types=True` the packer refuses tuples (TypeError)
and integers outside the `int64`/`uint64` range (OverflowError); everything
else packs.  The byte layout below follows the MessagePack spec (smallest
applicable format code, big-endian lengths); the IEEE-754 bit pattern of
*finite* floats is abstracted, and no theorem depends on msgpack body bytes. -/

/-- The two exception classes `_serialize_msgpack` catches. -/
inductive MsgpackErr where
  | typeErr
  | overflowErr
deriving Repr, DecidableEq

/-- `k` big-endian bytes of `n`. -/
def beBytes (k : Nat) (n : Nat) : List Nat :=
  (List.range k).reverse.map (fun i => n / 256 ^ i % 256)

/-- Pack an integer with the smallest msgpack format code; out-of-range
integers raise OverflowError in msgpack-python. -/
def packInt (n : Int) : Except MsgpackErr (List Nat) :=
  if 0 ≤ n then
    let m := n.toNat
    if m ≤ 0x7F then .ok [m]
    else if m ≤ 0xFF then .ok [0xCC, m]
    else if m ≤ 0xFFFF then .ok (0xCD :: beBytes 2 m)
    else if m ≤ 0xFFFFFFFF then .ok (0xCE :: beBytes 4 m)
    else if m ≤ 0xFFFFFFFFFFFFFFFF then .ok (0xCF :: beBytes 8 m)
    else .error .overflowErr
  else
    if -32 ≤ n then .ok [(256 + n).toNat]
    else if -128 ≤ n then .ok [0xD0, (256 + n).toNat]
    else if -32768 ≤ n then .ok (0xD1 :: beBytes 2 (65536 + n).toNat)
    else if -2147483648 ≤ n then .ok (0xD2 :: beBytes 4 (4294967296 + n).toNat)
    else if -9223372036854775808 ≤ n then
      .ok (0xD3 :: beBytes 8 (18446744073709551616 + n).toNat)
    else .error .overflowErr

/-- Pack a string (`use_bin_type=True`: text uses the str family). -/
def packStr (s : String) : List Nat :=
  let bs := utf8Encode s
  let l := bs.length
  if l < 32 then (0xA0 + l) :: bs
  else if l < 256 then 0xD9 :: l :: bs
  else if l < 65536 then 0xDA :: beBytes 2 l ++ bs
  else 0xDB :: beBytes 4 l ++ bs

/-- Array header for `l` elements. -/
def packArrayHeader (l : Nat) : List Nat :=
  if l < 16 then [0x90 + l]
  else if l < 65536 then 0xDC :: beBytes 2 l
  else 0xDD :: beBytes 4 l

/-- Map header for `l` pairs. -/
def packMapHeader (l : Nat) : List Nat :=
  if l < 16 then [0x80 + l]
  else if l < 65536 then 0xDE :: beBytes 2 l
  else 0xDF :: beBytes 4 l

/-- Eight bytes for a binary64 float: exact bit patterns for the non-finite
values and zero; other finite floats are abstracted (marker bytes), since no
theorem inspects msgpack float bytes. -/
def ieee64Bytes : PyFloat → List Nat
  | .nan => [0x7F, 0xF8, 0, 0, 0, 0, 0, 0]
  | .inf => [0x7F, 0xF0, 0, 0, 0, 0, 0, 0]
  | .ninf => [0xFF, 0xF0, 0, 0, 0, 0, 0, 0]
  | .finite q => if q = 0 then [0, 0, 0, 0, 0, 0, 0, 0] else beBytes 8 q.num.natAbs

mutual
/-- `msgpack.packb(v, use_bin_type=True, strict_types=True)`. -/
def msgpackPackb : Value → Except MsgpackErr (List Nat)
  | .null => .ok [0xC0]
  | .bool b => .ok [if b then 0xC3 else 0xC2]
  | .int n => packInt n
  | .float f => .ok (0xCB :: ieee64Bytes f)
  | .str s => .ok (packStr s)
  | .list xs =>
    match packListElems xs with
    | .ok body => .ok (packArrayHeader xs.length ++ body)
    | .error e => .error e
  | .tuple _ => .error .typeErr
  | .dict kvs =>
    match packDictEntries kvs with
    | .ok body => .ok (packMapHeader kvs.length ++ body)
    | .error e => .error e

/-- Packed concatenation of array elements. -/
def packListElems : List Value → Except MsgpackErr (List Nat)
  | [] => .ok []
  | v :: rest =>
    match msgpackPackb v with
    | .ok b =>
      match packListElems rest with
      | .ok r => .ok (b ++ r)
      | .error e => .error e
    | .error e => .error e

/-- Packed concatenation of map entries (string key, then value). -/
def packDictEntries : List (String × Value) → Except MsgpackErr (List Nat)
  | [] => .ok []
  | (k, v) :: rest =>
    match msgpackPackb v with
    | .ok b =>
      match packDictEntries rest with
      | .ok r => .ok (packStr k ++ b ++ r)
      | .error e => .error e
    | .error e => .error e
end

/-- Read `k` big-endian bytes. -/
def readBE : Nat → List Nat → Option (Nat × List Nat)
  | 0, bs => some (0, bs)
  | k + 1, b :: bs =>
    match readBE k bs with
    | some (n, r) => some (b * 256 ^ k + n, r)
    | none => none
  | _ + 1, [] => none

/-- Split `k` bytes off the front. -/
def splitBytes : Nat → List Nat → Option (List Nat × List Nat)
  | 0, bs => some ([], bs)
  | k + 1, b :: bs =>
    match splitBytes k bs with
    | some (p, r) => some (b :: p, r)
    | none => none
  | _ + 1, [] => none

mutual
/-- One msgpack object (`msgpack.unpackb` with `raw=False`), restricted to
the formats `msgpackPackb` emits; anything else fails as the library would.
Float bodies are inverted only for the exact patterns `ieee64Bytes` emits. -/
def msgpackUnpack1 : Nat → List Nat → Option (Value × List Nat)
  | 0, _ => none
  | fuel + 1, bs =>
    match bs with
    | [] => none
    | b :: r =>
      if b ≤ 0x7F then some (.int b, r)
      else if 0xE0 ≤ b ∧ b ≤ 0xFF then some (.int ((b : Int) - 256), r)
      else if 0xA0 ≤ b ∧ b ≤ 0xBF then
        match splitBytes (b - 0xA0) r with
        | some (sb, r2) =>
          match utf8Decode sb with
          | some s => some (.str s, r2)
          | none => none
        | none => none
      else if 0x90 ≤ b ∧ b ≤ 0x9F then msgpackUnpackN fuel (b - 0x90) r []
      else if 0x80 ≤ b ∧ b ≤ 0x8F then msgpackUnpackMapN fuel (b - 0x80) r []
      else if b = 0xC0 then some (.null, r)
      else if b = 0xC2 then some (.bool false, r)
      else if b = 0xC3 then some (.bool true, r)
      else if b = 0xCC then
        match r with
        | m :: r2 => some (.int m, r2)
        | [] => none
      else if b = 0xCD then
        match readBE 2 r with
        | some (n, r2) => some (.int n, r2)
        | none => none
      else if b = 0xCE then
        match readBE 4 r with
        | some (n, r2) => some (.int n, r2)
        | none => none
      else if b = 0xCF then
        match readBE 8 r with
        | some (n, r2) => some (.int n, r2)
        | none => none
      else if b = 0xD0 then
        match r with
        | m :: r2 => some (.int (if m < 128 then (m : Int) else (m : Int) - 256), r2)
        | [] => none
      else if b = 0xD1 then
        match readBE 2 r with
        | some (n, r2) => some (.int (if n < 32768 then (n : Int) else (n : Int) - 65536), r2)
        | none => none
      else if b = 0xD2 then
        match readBE 4 r with
        | some (n, r2) =>
          some (.int (if n < 2147483648 then (n : Int) else (n : Int) - 4294967296), r2)
        | none => none
      else if b = 0xD3 then
        match readBE 8 r with
        | some (n, r2) =>
          some (.int (if n < 9223372036854775808 then (n : Int)
                      else (n : Int) - 18446744073709551616), r2)
        | none => none
      else if b = 0xCB then
        match splitBytes 8 r with
        | some (fb, r2) =>
          if fb = ieee64Bytes .nan then some (.float .nan, r2)
          else if fb = ieee64Bytes .inf then some (.float .inf, r2)
          else if fb = ieee64Bytes .ninf then some (.float .ninf, r2)
          else if fb = [0, 0, 0, 0, 0, 0, 0, 0] then some (.float (.finite 0), r2)
          else none
        | none => none
      else if b = 0xD9 then
        match r with
        | l :: r2 =>
          match splitBytes l r2 with
          | some (sb, r3) =>
            match utf8Decode sb with
            | some s => some (.str s, r3)
            | none => none
          | none => none
        | [] => none
      else if b = 0xDA then
        match readBE 2 r with
        | some (l, r2) =>
          match splitBytes l r2 with
          | some (sb, r3) =>
            match utf8Decode sb with
            | some s => some (.str s, r3)
            | none => none
          | none => none
        | none => none
      else if b = 0xDC then
        match readBE 2 r with
        | some (l, r2) => msgpackUnpackN fuel l r2 []
        | none => none
      else if b = 0xDE then
        match readBE 2 r with
        | some (l, r2) => msgpackUnpackMapN fuel l r2 []
        | none => none
      else none
termination_by structural fuel _ => fuel

/-- `n` consecutive msgpack objects, building an array. -/
def msgpackUnpackN : Nat → Nat → List Nat → List Value → Option (Value × List Nat)
  | 0, _, _, _ => none
  | _ + 1, 0, bs, acc => some (.list acc.reverse, bs)
  | fuel + 1, n + 1, bs, acc =>
    match msgpackUnpack1 fuel bs with
    | some (v, r) => msgpackUnpackN fuel n r (v :: acc)
    | none => none
termination_by structural fuel _ _ _ => fuel

/-- `n` consecutive key/value pairs, building a map (keys must be strings,
as all maps this system produces have string keys). -/
def msgpackUnpackMapN : Nat → Nat → List Nat → List (String × Value) →
    Option (Value × List Nat)
  | 0, _, _, _ => none
  | _ + 1, 0, bs, acc => some (.dict acc.reverse, bs)
  | fuel + 1, n + 1, bs, acc =>
    match msgpackUnpack1 fuel bs with
    | some (.str k, r) =>
      match msgpackUnpack1 fuel r with
      | some (v, r2) => msgpackUnpackMapN fuel n r2 ((k, v) :: acc)
      | none => none
    | some (_, _) => none
    | none => none
termination_by structural fuel _ _ _ => fuel
end

/-- `msgpack.unpackb(data, raw=False)`: exactly one object, trailing bytes
raise `ExtraData`. -/
def msgpackUnpackb (bs : List Nat) : Except String Value :=
  match msgpackUnpack1 (bs.length + 1) bs with
  | some (v, []) => .ok v
  | some (_, _ :: _) => .error "ExtraData"
  | none => .error "msgpack unpack failed"

/-! ### The serialization codec (`codec.py`, class `SerializationCodec`)

The `_format_stats` usage counters are a side effect no claim mentions and
are omitted from the model. -/

/-- `CodecConfig` (thresholds; compression/checksum flags are unused by the
code and omitted). -/
structure CodecConfig where
  jsonThreshold : Nat
  msgpackThreshold : Nat
  protobufThreshold : Nat

/-- The dataclass defaults: 1000 / 100000 / 1000000. -/
def defaultCodecConfig : CodecConfig := ⟨1000, 100000, 1000000⟩

mutual
/-- `_estimate_payload_size`: length of a top-level list/tuple; for a dict,
the sum over its values of each list/tuple value's length, recursing into
dict values; `0` for every other value. -/
def estimatePayloadSize : Value → Nat
  | .list xs => xs.length
  | .tuple xs => xs.length
  | .dict kvs => estimateEntries kvs
  | _ => 0

/-- The dict part of `_estimate_payload_size`. -/
def estimateEntries : List (String × Value) → Nat
  | [] => 0
  | (_, v) :: rest =>
    (match v with
     | .list xs => xs.length
     | .tuple xs => xs.length
     | .dict kvs => estimateEntries kvs
     | _ => 0) + estimateEntries rest
end

/-- `_select_format`. -/
def selectFormat (cfg : CodecConfig) (v : Value) : String :=
  let payloadSize := estimatePayloadSize v
  if payloadSize < cfg.jsonThreshold then "json"
  else if payloadSize < cfg.msgpackThreshold then "msgpack"
  else "protobuf"

/-- `_format_to_id`: `{"json": 1, "msgpack": 2, "protobuf": 3}.get(name, 1)`. -/
def formatToId (name : String) : Nat :=
  if name = "json" then 1
  else if name = "msgpack" then 2
  else if name = "protobuf" then 3
  else 1

/-- `_id_to_format`: `{1: "json", 2: "msgpack", 3: "protobuf"}.get(id, "json")`.
Note the `"json"` default for unrecognized ids. -/
def idToFormat (i : Nat) : String :=
  if i = 1 then "json"
  else if i = 2 then "msgpack"
  else if i = 3 then "protobuf"
  else "json"

/-- `_serialize_json`: encode to JSON text, then UTF-8 bytes. -/
def serializeJsonPy (v : Value) : List Nat := utf8Encode (jsonEncode v)

/-- `_deserialize_json`: UTF-8 decode, `json.loads` with `object_hook`. -/
def deserializeJsonPy (bs : List Nat) : Except String Value :=
  match utf8Decode bs with
  | none => .error "UnicodeDecodeError"
  | some s =>
    match parseJson s with
    | none => .error "JSONDecodeError"
    | some v => .ok (applyHook v)

/-- `_serialize_msgpack`: `msgpack.packb`, but `(TypeError, OverflowError)`
is caught *inside this helper* and answered with JSON bytes — without any
retagging by the caller. -/
def serializeMsgpackPy (v : Value) : List Nat :=
  match msgpackPackb v with
  | .ok bs => bs
  | .error _ => serializeJsonPy v

/-- `_serialize_protobuf`: placeholder that delegates to MessagePack. -/
def serializeProtobufPy (v : Value) : List Nat := serializeMsgpackPy v

/-- The body produced inside `serialize`'s `try` block for a chosen format
name; an unknown name raises `ValueError(f"Unsupported format: ...")`. -/
def serializeBody (fmt : String) (v : Value) : Except String (List Nat) :=
  if fmt = "json" then .ok (serializeJsonPy v)
  else if fmt = "msgpack" then .ok (serializeMsgpackPy v)
  else if fmt = "protobuf" then .ok (serializeProtobufPy v)
  else .error ("Unsupported format: " ++ fmt)

/-- `format_override or self._select_format(data)`: Python `or` treats the
*empty string* as falsy, so an empty override falls back to automatic
selection. -/
def resolveFormat (cfg : CodecConfig) (v : Value) (override : Option String) : String :=
  match override with
  | some f => if f = "" then selectFormat cfg v else f
  | none => selectFormat cfg v

/-- `SerializationCodec.serialize`: resolve the format, build the body, and
prepend the 1-byte format tag; on an exception, if the chosen format was not
JSON, fall back to a JSON-tagged JSON body, else re-raise. -/
def serialize (cfg : CodecConfig) (v : Value) (override : Option String) :
    Except String (List Nat) :=
  let fmt := resolveFormat cfg v override
  match serializeBody fmt v with
  | .ok body => .ok (formatToId fmt :: body)
  | .error e =>
    if fmt = "json" then .error e
    else .ok (formatToId "json" :: serializeJsonPy v)

/-- `SerializationCodec.deserialize`: length check, tag byte to format name
via `_id_to_format`, then the format's decoder.  The `"Unknown format ID"`
branch is kept exactly as in the source — it is dead code there, because
`_id_to_format` never returns anything outside the three names. -/
def deserialize (bs : List Nat) : Except String Value :=
  match bs with
  | [] => .error "Data too short to contain format header"
  | b :: payload =>
    let fmt := idToFormat b
    if fmt = "json" then deserializeJsonPy payload
    else if fmt = "msgpack" then msgpackUnpackb payload
    else if fmt = "protobuf" then msgpackUnpackb payload
    else .error ("Unknown format ID: " ++ toString b)

/-- Observer: the leading format-tag byte of a successful `serialize`. -/
def serializedTag (cfg : CodecConfig) (v : Value) (override : Option String) :
    Option Nat :=
  match serialize cfg v override with
  | .ok bs => bs.head?
  | .error _ => none

/-! ### Validation (`validation.py`)

`jsonschema.validate` is a third-party library; its draft-7 semantics on the
two schema documents is modelled as a boolean check: the instance must be an
object; `schema_version`, `matrix`, `model` are required; typed properties
are checked when present (`required` makes them present here); extra
properties are allowed; JSON-schema `integer` matches Python `int` but not
`bool`.  Failure messages of `ValidationError` are abstracted to a marker,
as no claim inspects them; the `ValueError` message for an unsupported
schema version is modelled exactly. -/

/-- JSON-schema `{"type": "integer"}` under python-jsonschema. -/
def isIntVal : Value → Bool
  | .int _ => true
  | _ => false

/-- JSON-schema `{"type": "string"}`. -/
def isStrVal : Value → Bool
  | .str _ => true
  | _ => false

/-- The `matrix` schema: an array of arrays of integers. -/
def isIntMatrix : Value → Bool
  | .list rows =>
    rows.all fun r =>
      match r with
      | .list cells => cells.all isIntVal
      | _ => false
  | _ => false

/-- The `model` subschema shared by v1 and v2: an object with required
string properties `name` and `version`. -/
def isModelObj (v : Value) : Bool :=
  match v with
  | .dict mkvs =>
    (match lookupKey mkvs "name" with
     | some nv => isStrVal nv
     | none => false) &&
    (match lookupKey mkvs "version" with
     | some vv => isStrVal vv
     | none => false)
  | _ => false

/-- `jsonschema.validate(instance, matrix_model_schema_v1)` as a boolean. -/
def matchesSchemaV1 (v : Value) : Bool :=
  match v with
  | .dict kvs =>
    (match lookupKey kvs "schema_version" with
     | some sv => isIntVal sv
     | none => false) &&
    (match lookupKey kvs "matrix" with
     | some m => isIntMatrix m
     | none => false) &&
    (match lookupKey kvs "model" with
     | some mo => isModelObj mo
     | none => false)
  | _ => false

/-- `jsonschema.validate(instance, matrix_model_schema_v2)`: v1's checks
plus the optional string property `author` on `model`. -/
def matchesSchemaV2 (v : Value) : Bool :=
  matchesSchemaV1 v &&
  (match v with
   | .dict kvs =>
     match lookupKey kvs "model" with
     | some (.dict mkvs) =>
       match lookupKey mkvs "author" with
       | some av => isStrVal av
       | none => true
     | _ => true
   | _ => true)

/-- Python `x == n` for an integer literal `n`: exact for ints, `True == 1`
and `False == 0` for bools, numeric comparison for finite floats; `False`
for every non-numeric value (and for the non-finite floats). -/
def pyEqInt (v : Value) (n : Int) : Bool :=
  match v with
  | .int m => m = n
  | .bool b => (if b then (1 : Int) else 0) = n
  | .float (.finite q) => q = (n : Rat)
  | _ => false

/-- Python `str(v)` for the values that can reach the f-string in
`validate_matrix_model`.  Containers are abstracted to a marker: no theorem
formats a container. -/
def pyStr : Value → String
  | .int n => toString n
  | .str s => s
  | .bool b => if b then "True" else "False"
  | .null => "None"
  | .float f =>
    match f with
    | .nan => "nan"
    | .inf => "inf"
    | .ninf => "-inf"
    | .finite q => floatLit (.finite q)
  | .list _ => "a list"
  | .tuple _ => "a tuple"
  | .dict _ => "a dict"

/-- `validate_matrix_model(payload)`: dispatch on
`payload.get("schema_version", 1)` with Python `==`; versions other than 1
and 2 raise `ValueError(f"Unsupported schema version: {version}")`.  Calling
`.get` on a non-dict raises `AttributeError`. -/
def validateMatrixModel (payload : Value) : Except String Unit :=
  match payload with
  | .dict kvs =>
    let version := (lookupKey kvs "schema_version").getD (.int 1)
    if pyEqInt version 1 then
      if matchesSchemaV1 payload then .ok () else .error "ValidationError"
    else if pyEqInt version 2 then
      if matchesSchemaV2 payload then .ok () else .error "ValidationError"
    else .error ("Unsupported schema version: " ++ pyStr version)
  | other => .error ("AttributeError: " ++ pyStr other ++ " has no attribute get")

/-! ### The worker (`server.py`: `_process_request`, `_worker_thread`) -/

/-- Is `sub` a prefix of `l`? -/
def listStartsWith (l sub : List Char) : Bool :=
  match sub, l with
  | [], _ => true
  | _ :: _, [] => false
  | s :: ss, c :: cs => s = c && listStartsWith cs ss

/-- Python `sub in s` substring containment. -/
def strContainsSub (s sub : String) : Bool :=
  go s.data sub.data
where
  /-- Scan for the pattern at every suffix. -/
  go : List Char → List Char → Bool
  | l, sub =>
    if listStartsWith l sub then true
    else
      match l with
      | [] => false
      | _ :: rest => go rest sub

/-- Python `"payload" in payload` for each runtime type: key membership for
dicts, substring test for strings, element equality for lists/tuples, and a
`TypeError` for non-iterables. -/
def pyContains (v : Value) (key : String) : Except String Bool :=
  match v with
  | .dict kvs => .ok ((lookupKey kvs key).isSome)
  | .str s => .ok (strContainsSub s key)
  | .list xs =>
    .ok (xs.any fun e =>
      match e with
      | .str t => t = key
      | _ => false)
  | .tuple xs =>
    .ok (xs.any fun e =>
      match e with
      | .str t => t = key
      | _ => false)
  | other =>
    .error ("TypeError: argument of type " ++ pyStr other ++ " is not iterable")

/-- Python `payload["payload"]` subscription. -/
def pyGetItem (v : Value) (key : String) : Except String Value :=
  match v with
  | .dict kvs =>
    match lookupKey kvs key with
    | some x => .ok x
    | none => .error ("KeyError: " ++ key)
  | _ => .error "TypeError: value is not subscriptable with a string"

/-- The integer rows of a validated `matrix` value. -/
def extractMatrix (v : Value) : Option (List (List Int)) :=
  match v with
  | .list rows =>
    rows.mapM fun r =>
      match r with
      | .list cells =>
        cells.mapM fun c =>
          match c with
          | .int n => some n
          | _ => none
      | _ => none
  | _ => none

/-- `np.array(matrix, dtype=np.float64)` + `.sum()` + `.shape`: a ragged
matrix raises `ValueError`; a rectangular one yields the exact sum (binary64
arithmetic is exact for the integer ranges exercised here) and the shape
list (`[0]` for the empty matrix, as NumPy gives shape `(0,)`). -/
def npFloat64MatrixSum (rows : List (List Int)) : Except String (Int × List Nat) :=
  match rows with
  | [] => .ok (0, [0])
  | r0 :: _ =>
    if rows.all fun r => r.length = r0.length then
      .ok ((rows.map fun r => r.foldl (· + ·) 0).foldl (· + ·) 0,
           [rows.length, r0.length])
    else .error "ValueError: inhomogeneous matrix shape"

/-- The success dict `_process_request` returns, in source field order. -/
def successResponse (now : Rat) (s : Int) (shape : List Nat) (nameV sv : Value) :
    Value :=
  .dict [("status", .str "success"),
         ("matrix_sum", .float (.finite (s : Rat))),
         ("model_checked", nameV),
         ("schema_version_used", sv),
         ("timestamp", .float (.finite now)),
         ("matrix_shape", .list (shape.map fun n => .int (n : Int))),
         ("data_type", .str "float64")]

/-- The data-dependent part of `_process_request`: unwrap the optional
`"payload"` envelope, validate, and compute sum/shape/name/schema-version.
The `KeyError` branches are unreachable once validation has succeeded. -/
def processRequestCore (payload : Value) :
    Except String (Int × List Nat × Value × Value) :=
  match pyContains payload "payload" with
  | .error e => .error e
  | .ok has =>
    match (if has then pyGetItem payload "payload" else .ok payload) with
    | .error e => .error e
    | .ok data =>
      match validateMatrixModel data with
      | .error e => .error e
      | .ok _ =>
        match data with
        | .dict kvs =>
          match lookupKey kvs "matrix" with
          | some mval =>
            match lookupKey kvs "model" with
            | some (.dict mkvs) =>
              match lookupKey mkvs "name" with
              | some nameV =>
                match extractMatrix mval with
                | some rows =>
                  match npFloat64MatrixSum rows with
                  | .ok (s, shape) =>
                    .ok (s, shape, nameV, (lookupKey kvs "schema_version").getD (.int 1))
                  | .error e => .error e
                | none => .error "ValueError: matrix is not integer rows"
              | none => .error "KeyError: name"
            | _ => .error "KeyError: model"
          | none => .error "KeyError: matrix"
        | _ => .error "TypeError: data is not a dict"

/-- `_process_request(payload)` with the inner `time.time()` reading passed
in as `now`. -/
def processRequest (now : Rat) (payload : Value) : Except String Value :=
  match processRequestCore payload with
  | .ok (s, shape, nameV, sv) => .ok (successResponse now s shape nameV sv)
  | .error e => .error e

/-- A queued work item `(client_id, correlation_id, payload)`. -/
structure WorkItem where
  client : String
  corr : String
  payload : Value
deriving Repr

/-- The body of one `_worker_thread` iteration on a dequeued item: process,
stamp `correlation_id` and `processing_time` on success, or build the error
response dict; either way an answer for the item's client is produced.
`t0`, `tMid`, `t1` are the three `time.time()` readings in source order. -/
def workerStep (item : WorkItem) (t0 tMid t1 : Rat) : String × Value :=
  match processRequest tMid item.payload with
  | .ok resp =>
    (item.client,
     dictAssign (dictAssign resp "correlation_id" (.str item.corr))
       "processing_time" (.float (.finite (t1 - t0))))
  | .error e =>
    (item.client,
     .dict [("status", .str "error"),
            ("message", .str e),
            ("correlation_id", .str item.corr),
            ("processing_time", .float (.finite (t1 - t0)))])

/-! ### Worker pool queue and broker dispatch (`server.py`) -/

/-- The bounded request queue of `WorkerPool` (`queue.Queue(maxsize=...)`):
`maxQueueSize = 0` means unbounded, as in `queue.Queue`. -/
structure PoolState where
  maxQueueSize : Nat
  requestQueue : List WorkItem
deriving Repr

/-- `WorkerPool.submit_request`: `put_nowait` returns normally and the item
is appended iff the queue is not at capacity; on `queue.Full` the function
returns `False` and the queue is untouched.  No branch waits. -/
def submitRequest (st : PoolState) (w : WorkItem) : Bool × PoolState :=
  if st.maxQueueSize = 0 ∨ st.requestQueue.length < st.maxQueueSize then
    (true, ⟨st.maxQueueSize, st.requestQueue ++ [w]⟩)
  else (false, st)

/-- The four counters of `AdvancedServer.metrics` that the dispatch path
mutates (`avg_processing_time` and the `queue_size` gauge carry no claim). -/
structure Metrics where
  requestsTotal : Nat
  requestsSuccess : Nat
  requestsErr : Nat
  requestsRejected : Nat
deriving Repr

/-- `self.metrics["requests_total"] += 1`. -/
def incTotal (m : Metrics) : Metrics :=
  ⟨m.requestsTotal + 1, m.requestsSuccess, m.requestsErr, m.requestsRejected⟩

/-- `self.metrics["requests_rejected"] += 1`. -/
def incRejected (m : Metrics) : Metrics :=
  ⟨m.requestsTotal, m.requestsSuccess, m.requestsErr, m.requestsRejected + 1⟩

/-- The broker state the frontend handler touches. -/
structure BrokerState where
  pool : PoolState
  metrics : Metrics
deriving Repr

/-- One `send_multipart([client_id, b"", body])` call; the body is the dict
passed to `json.dumps`. -/
structure SentMsg where
  client : List Nat
  body : Value
deriving Repr

/-- The dict `_send_error_response` serializes (source field order). -/
def errorResponseBody (corr : String) (msg : String) (now : Rat) : Value :=
  .dict [("status", .str "error"),
         ("message", .str msg),
         ("correlation_id", .str corr),
         ("timestamp", .float (.finite now))]

/-- The dict `_send_heartbeat_response` serializes;
`server_id = f"server_{id(self)}"` with `id(self)` passed in as `idNum`. -/
def heartbeatResponseBody (now : Rat) (idNum : Nat) : Value :=
  .dict [("status", .str "heartbeat_ack"),
         ("timestamp", .float (.finite now)),
         ("server_id", .str ("server_" ++ toString idNum))]

/-- The heartbeat comparison `data == "HEARTBEAT"`. -/
def isHeartbeat (v : Value) : Bool :=
  match v with
  | .str s => s = "HEARTBEAT"
  | _ => false

/-- One `_handle_frontend` call on a received multipart message, returning
the new broker state and the messages sent, in order.  Mirrors the source:

  * fewer than four parts: `return` — nothing sent, nothing changed;
  * `payload.decode("utf-8")` failing raises `UnicodeDecodeError`, which the
    `except json.JSONDecodeError` clause does *not* catch; the outer
    `except Exception` logs it — nothing sent, nothing changed;
  * JSON parse failure: `_send_error_response(..., "Invalid JSON")`
    (whose `correlation_id.decode()` must itself succeed);
  * heartbeat payload: `_send_heartbeat_response`, touching neither the
    queue nor the metrics;
  * otherwise `submit_request(client_id.decode(), correlation_id.decode(),
    data)`: on `True` increment `requests_total`; on `False` increment
    `requests_rejected` and send the "Server overloaded" error envelope,
    in the same handler invocation. -/
def handleFrontend (st : BrokerState) (message : List (List Nat)) (now : Rat)
    (idNum : Nat) : BrokerState × List SentMsg :=
  match message with
  | cid :: _ :: corr :: payload :: _ =>
    match utf8Decode payload with
    | none => (st, [])
    | some text =>
      match parseJson text with
      | none =>
        match utf8Decode corr with
        | some corrS => (st, [⟨cid, errorResponseBody corrS "Invalid JSON" now⟩])
        | none => (st, [])
      | some data =>
        if isHeartbeat data then (st, [⟨cid, heartbeatResponseBody now idNum⟩])
        else
          match utf8Decode cid, utf8Decode corr with
          | some cidS, some corrS =>
            match submitRequest st.pool ⟨cidS, corrS, data⟩ with
            | (true, pool2) => (⟨pool2, incTotal st.metrics⟩, [])
            | (false, pool2) =>
              (⟨pool2, incRejected st.metrics⟩,
               [⟨cid, errorResponseBody corrS "Server overloaded" now⟩])
          | _, _ => (st, [])
  | _ => (st, [])

/-! ### Named concrete inputs used by the claim theorems -/

/-- The claim C2 failing input: a dict whose integer exceeds `uint64`, which
`msgpack.packb` rejects with `OverflowError` but JSON represents exactly. -/
def c2val : Value := .dict [("x", .int (2 ^ 100))]

/-- The claim C3 failing input: a dict holding the ordinary *string*
`"NaN"`. -/
def c3val : Value := .dict [("x", .str "NaN")]

/-- What the codec's decode hook turns `c3val` into. -/
def c3hooked : Value := .dict [("x", .float .nan)]

/-- A payload declaring the unsupported schema version 3 (claim C7). -/
def payloadV3 : Value :=
  .dict [("schema_version", .int 3),
         ("matrix", .list [.list [.int 1, .int 2]]),
         ("model", .dict [("name", .str "M"), ("version", .str "0.1")])]

/-- The end-to-end scenario payload of claim C9. -/
def payloadC9 : Value :=
  .dict [("schema_version", .int 1),
         ("matrix", .list [.list [.int 1, .int 2], .list [.int 3, .int 4]]),
         ("model", .dict [("name", .str "TestModel"), ("version", .str "0.1")])]

/-- A broker state with an empty queue and zeroed metrics. -/
def c8state : BrokerState := ⟨⟨1000, []⟩, ⟨0, 0, 0, 0⟩⟩

/-- A value whose automatic format selection is MessagePack (1500 array
elements), used against the empty-string override (claim C10). -/
def c10big : Value := .list (List.replicate 1500 (.int 0))

/-! ### Helper lemmas shared by several claims -/

/-- With no override, `serialize` always succeeds and its leading byte is
the tag of the automatically selected format: for the three names
`_select_format` can produce, the body builder never raises (MessagePack
failures are swallowed inside `_serialize_msgpack`). -/
theorem serializedTag_no_override (cfg : CodecConfig) (v : Value) :
    serializedTag cfg v none = some (formatToId (selectFormat cfg v)) := by
  have h3 : selectFormat cfg v = "json" ∨ selectFormat cfg v = "msgpack" ∨
      selectFormat cfg v = "protobuf" := by
    by_cases h1 : estimatePayloadSize v < cfg.jsonThreshold
    · exact Or.inl (by simp [selectFormat, h1])
    · by_cases h2 : estimatePayloadSize v < cfg.msgpackThreshold
      · exact Or.inr (Or.inl (by simp [selectFormat, h1, h2]))
      · exact Or.inr (Or.inr (by simp [selectFormat, h1, h2]))
  rcases h3 with h | h | h <;>
    simp [serializedTag, serialize, resolveFormat, serializeBody, h, formatToId]

/-- Every successful `_process_request` result is a `successResponse`
literal: a dict whose keys are the seven fixed result fields. -/
theorem processRequest_ok_shape (now : Rat) (p r : Value)
    (h : processRequest now p = Except.ok r) :
    ∃ s shape nameV sv, r = successResponse now s shape nameV sv := by
  unfold processRequest at h
  cases hc : processRequestCore p with
  | ok q =>
    rw [hc] at h
    exact ⟨q.1, q.2.1, q.2.2.1, q.2.2.2, (Except.ok.injEq _ _).mp h.symm⟩
  | error e =>
    rw [hc] at h
    cases h

/-- `_estimate_payload_size` of a top-level list is its length. -/
theorem estimatePayloadSize_list (xs : List Value) :
    estimatePayloadSize (Value.list xs) = xs.length := by
  simp [estimatePayloadSize]

/-! ### Claim theorems -/

/-- C1: the claim says every blob whose first byte is not 1/2/3 must fail to
decode with a distinct error, and decoding must never default to a format.
In the code, `_id_to_format` maps every unrecognized id to `"json"` (its
`.get` default), so `deserialize` happily decodes the remaining bytes as
JSON: the blob `[5] ++ b"\x7b\x7d"` (tag 5, JSON text) decodes to the empty
dict instead of failing — the "Unknown format ID" branch of `deserialize`
is dead code.  Only the empty-input check behaves as claimed. -/
theorem c1_unknown_tag_decodes_as_json :
    deserialize [5, 123, 125] = Except.ok (Value.dict []) ∧
    idToFormat 5 = "json" ∧
    deserialize [] = Except.error "Data too short to contain format header" := by
  refine ⟨?_, rfl, rfl⟩
  have h : deserialize [5, 123, 125] = Except.ok (applyHook (Value.dict [])) := rfl
  rw [h]
  simp [applyHook, applyHookEntries, hookOwnEntries]

/-- C2: the claim says a failed chosen-format encode is retried as JSON and
retagged with the JSON tag so the tag always matches the body.  In the code
`_serialize_msgpack` swallows `(TypeError, OverflowError)` and returns JSON
*bytes* itself, so `serialize` never sees the failure and still writes the
MessagePack tag 2: for `{"x": 2**100}` with override `"msgpack"` the result
is tag 2 followed by a JSON body (tag 1 would be the JSON tag).  `serialize`
indeed does not raise — only the retagging half of the claim fails. -/
theorem c2_msgpack_fallback_keeps_wrong_tag :
    msgpackPackb c2val = Except.error MsgpackErr.overflowErr ∧
    serialize defaultCodecConfig c2val (some "msgpack") =
      Except.ok (2 :: serializeJsonPy c2val) ∧
    serializedTag defaultCodecConfig c2val (some "msgpack") = some 2 ∧
    formatToId "json" = 1 := by
  have hpack : msgpackPackb c2val = Except.error MsgpackErr.overflowErr := by
    have hv : packInt 1267650600228229401496703205376 = Except.error MsgpackErr.overflowErr :=
      rfl
    simp [c2val, msgpackPackb, packDictEntries, hv]
  have hmp : serializeMsgpackPy c2val = serializeJsonPy c2val := by
    simp [serializeMsgpackPy, hpack]
  have hser : serialize defaultCodecConfig c2val (some "msgpack") =
      Except.ok (2 :: serializeMsgpackPy c2val) := rfl
  refine ⟨hpack, ?_, ?_, rfl⟩
  · rw [hser, hmp]
  · simp [serializedTag, hser]

/-- C3: the claim says `deserialize ∘ serialize` is the identity on
representable values because non-finite floats are replaced by sentinel
*strings* on encode and the replacement is reversed on decode.  Neither half
matches the code: `json.dumps`'s `default=` hook is never called for floats
(they serialize natively as the bare tokens `NaN`/`Infinity`/`-Infinity`,
shown by the last conjunct), while the decode hook rewrites every dict
entry holding the ordinary string `"NaN"` into `float("nan")`.  Hence the
round trip is not the identity: `{"x": "NaN"}` comes back as `{"x": nan}`. -/
theorem c3_round_trip_corrupts_sentinel_string :
    serialize defaultCodecConfig c3val none = Except.ok (1 :: serializeJsonPy c3val) ∧
    deserialize (1 :: serializeJsonPy c3val) = Except.ok c3hooked ∧
    c3hooked ≠ c3val ∧
    jsonEncode c3hooked =
      String.singleton lbraceCh ++ "\"x\":NaN" ++ String.singleton rbraceCh := by
  have hest : estimatePayloadSize c3val = 0 := by
    simp [c3val, estimatePayloadSize, estimateEntries]
  have hsel : selectFormat defaultCodecConfig c3val = "json" := by
    simp [selectFormat, hest, defaultCodecConfig]
  have hj : jsonEncode c3val = "\x7b\"x\":\"NaN\"\x7d" := by
    simp [c3val, jsonEncode, jsonEncodeEntries, quoteJson, escapeJsonChar, lbraceCh, rbraceCh]
    rfl
  refine ⟨?_, ?_, ?_, ?_⟩
  · simp [serialize, resolveFormat, hsel, serializeBody, formatToId]
  · have h2 : deserialize (1 :: serializeJsonPy c3val) =
        Except.ok (applyHook (Value.dict [("x", Value.str "NaN")])) := by
      rw [serializeJsonPy, hj]
      rfl
    rw [h2]
    simp [applyHook, applyHookEntries, hookOwnEntries, hookString, c3hooked]
  · simp [c3hooked, c3val]
  · simp [c3hooked, jsonEncode, jsonEncodeEntries, quoteJson, escapeJsonChar, floatLit]
    rfl

/-- C4: with no override, the format (and hence the leading tag byte) is a
function of `_estimate_payload_size` — the total length of the array-typed
fields, recursing through nested dicts — compared against the 1,000 and
100,000 thresholds: estimated count 500 gives the JSON tag 1, 50,000 the
MessagePack tag 2, 500,000 the protobuf tag 3. -/
theorem c4_format_selected_by_element_count (v : Value) :
    (estimatePayloadSize v = 500 →
      serializedTag defaultCodecConfig v none = some 1) ∧
    (estimatePayloadSize v = 50000 →
      serializedTag defaultCodecConfig v none = some 2) ∧
    (estimatePayloadSize v = 500000 →
      serializedTag defaultCodecConfig v none = some 3) := by
  refine ⟨fun h => ?_, fun h => ?_, fun h => ?_⟩ <;> rw [serializedTag_no_override]
  · have hsel : selectFormat defaultCodecConfig v = "json" := by
      norm_num [selectFormat, defaultCodecConfig, h]
    rw [hsel]
    rfl
  · have hsel : selectFormat defaultCodecConfig v = "msgpack" := by
      norm_num [selectFormat, defaultCodecConfig, h]
    rw [hsel]
    rfl
  · have hsel : selectFormat defaultCodecConfig v = "protobuf" := by
      norm_num [selectFormat, defaultCodecConfig, h]
    rw [hsel]
    rfl

/-- C4 witness: flat payloads of exactly 500, 50,000 and 500,000 array
elements receive tags 1, 2 and 3. -/
theorem c4_format_selected_by_element_count_witness :
    estimatePayloadSize (Value.list (List.replicate 500 (Value.int 0))) = 500 ∧
    serializedTag defaultCodecConfig (Value.list (List.replicate 500 (Value.int 0))) none =
      some 1 ∧
    estimatePayloadSize (Value.list (List.replicate 50000 (Value.int 0))) = 50000 ∧
    serializedTag defaultCodecConfig (Value.list (List.replicate 50000 (Value.int 0))) none =
      some 2 ∧
    estimatePayloadSize (Value.list (List.replicate 500000 (Value.int 0))) = 500000 ∧
    serializedTag defaultCodecConfig (Value.list (List.replicate 500000 (Value.int 0))) none =
      some 3 := by
  have h1 : estimatePayloadSize (Value.list (List.replicate 500 (Value.int 0))) = 500 := by
    rw [estimatePayloadSize_list, List.length_replicate]
  have h2 : estimatePayloadSize (Value.list (List.replicate 50000 (Value.int 0))) = 50000 := by
    rw [estimatePayloadSize_list, List.length_replicate]
  have h3 : estimatePayloadSize (Value.list (List.replicate 500000 (Value.int 0))) = 500000 := by
    rw [estimatePayloadSize_list, List.length_replicate]
  exact ⟨h1, (c4_format_selected_by_element_count _).1 h1,
         h2, (c4_format_selected_by_element_count _).2.1 h2,
         h3, (c4_format_selected_by_element_count _).2.2 h3⟩

/-- C5: when the work queue already holds `max_queue_size` items,
`submit_request` returns `False` and leaves the queue untouched (the
`put_nowait` call never blocks), and the same `_handle_frontend` invocation
increments `requests_rejected` and sends the client one error envelope with
message `"Server overloaded"` carrying the request's correlation id; when
there is room, the item is enqueued and `requests_total` is incremented
instead, with nothing sent. -/
theorem c5_backpressure_rejection (st : BrokerState)
    (cid emptyP corr payload : List Nat) (extra : List (List Nat)) (now : Rat)
    (idNum : Nat) (cidS corrS text : String) (data : Value)
    (hcid : utf8Decode cid = some cidS) (hcorr : utf8Decode corr = some corrS)
    (hpl : utf8Decode payload = some text) (hparse : parseJson text = some data)
    (hhb : isHeartbeat data = false) :
    (st.pool.maxQueueSize ≠ 0 →
      st.pool.requestQueue.length = st.pool.maxQueueSize →
      submitRequest st.pool ⟨cidS, corrS, data⟩ = (false, st.pool) ∧
      handleFrontend st (cid :: emptyP :: corr :: payload :: extra) now idNum =
        (⟨st.pool, incRejected st.metrics⟩,
         [⟨cid, errorResponseBody corrS "Server overloaded" now⟩])) ∧
    (st.pool.requestQueue.length < st.pool.maxQueueSize →
      handleFrontend st (cid :: emptyP :: corr :: payload :: extra) now idNum =
        (⟨⟨st.pool.maxQueueSize, st.pool.requestQueue ++ [⟨cidS, corrS, data⟩]⟩,
          incTotal st.metrics⟩, [])) := by
  constructor
  · intro h0 hlen
    have hsub : submitRequest st.pool ⟨cidS, corrS, data⟩ = (false, st.pool) := by
      unfold submitRequest
      rw [if_neg]
      push_neg
      exact ⟨h0, by omega⟩
    refine ⟨hsub, ?_⟩
    simp only [handleFrontend, hpl, hparse, hcid, hcorr, hhb, hsub]
    simp
  · intro hlt
    have hsub : submitRequest st.pool ⟨cidS, corrS, data⟩ =
        (true, ⟨st.pool.maxQueueSize, st.pool.requestQueue ++ [⟨cidS, corrS, data⟩]⟩) := by
      unfold submitRequest
      rw [if_pos (Or.inr hlt)]
    simp only [handleFrontend, hpl, hparse, hcid, hcorr, hhb, hsub]
    simp

/-- C5 witness: a one-slot queue holding one item rejects the next request
and answers `"Server overloaded"` with its correlation id; the same message
against a two-slot queue is enqueued and counted in `requests_total`. -/
theorem c5_backpressure_rejection_witness :
    handleFrontend ⟨⟨1, [⟨"a", "b", Value.null⟩]⟩, ⟨3, 0, 0, 7⟩⟩
        [[65], [], [66], utf8Encode "5"] 0 0 =
      (⟨⟨1, [⟨"a", "b", Value.null⟩]⟩, ⟨3, 0, 0, 8⟩⟩,
       [⟨[65], errorResponseBody "B" "Server overloaded" 0⟩]) ∧
    handleFrontend ⟨⟨2, [⟨"a", "b", Value.null⟩]⟩, ⟨3, 0, 0, 7⟩⟩
        [[65], [], [66], utf8Encode "5"] 0 0 =
      (⟨⟨2, [⟨"a", "b", Value.null⟩, ⟨"A", "B", Value.int 5⟩]⟩, ⟨4, 0, 0, 7⟩⟩, []) := by
  have h1 := c5_backpressure_rejection ⟨⟨1, [⟨"a", "b", Value.null⟩]⟩, ⟨3, 0, 0, 7⟩⟩
    [65] [] [66] (utf8Encode "5") [] 0 0 "A" "B" "5" (Value.int 5)
    rfl rfl rfl rfl rfl
  have h2 := c5_backpressure_rejection ⟨⟨2, [⟨"a", "b", Value.null⟩]⟩, ⟨3, 0, 0, 7⟩⟩
    [65] [] [66] (utf8Encode "5") [] 0 0 "A" "B" "5" (Value.int 5)
    rfl rfl rfl rfl rfl
  exact ⟨(h1.1 (by decide) rfl).2, h2.2 (by decide)⟩

/-- C6: a four-part message whose payload parses to the string
`"HEARTBEAT"` is answered directly with the `heartbeat_ack` envelope
(status, timestamp, `server_id`); the broker state — queue contents *and*
all metric counters, `requests_total` included — is returned unchanged, for
every state, including a completely full queue. -/
theorem c6_heartbeat_bypasses_queue (st : BrokerState)
    (cid emptyP corr payload : List Nat) (extra : List (List Nat)) (now : Rat)
    (idNum : Nat) (text : String)
    (hpl : utf8Decode payload = some text)
    (hparse : parseJson text = some (Value.str "HEARTBEAT")) :
    handleFrontend st (cid :: emptyP :: corr :: payload :: extra) now idNum =
      (st, [⟨cid, heartbeatResponseBody now idNum⟩]) := by
  simp only [handleFrontend, hpl, hparse, isHeartbeat]
  simp

/-- C6 witness: the canonical heartbeat bytes against a server whose
one-slot queue is full: the ack is sent and the state is untouched. -/
theorem c6_heartbeat_bypasses_queue_witness :
    handleFrontend ⟨⟨1, [⟨"a", "b", Value.null⟩]⟩, ⟨3, 1, 2, 7⟩⟩
        [[65], [], [66], utf8Encode "\"HEARTBEAT\""] 5 9 =
      (⟨⟨1, [⟨"a", "b", Value.null⟩]⟩, ⟨3, 1, 2, 7⟩⟩,
       [⟨[65], heartbeatResponseBody 5 9⟩]) :=
  c6_heartbeat_bypasses_queue ⟨⟨1, [⟨"a", "b", Value.null⟩]⟩, ⟨3, 1, 2, 7⟩⟩
    [65] [] [66] (utf8Encode "\"HEARTBEAT\"") [] 5 9 "\"HEARTBEAT\"" rfl rfl

/-- C7: whatever `_process_request` does with a dequeued item — success or
any raised exception — the worker's answer goes to the item's client and
carries the item's correlation id; an exception becomes the error response
dict with `str(e)` as message; and the concrete payload with
`schema_version: 3` produces exactly the error response whose message is
`"Unsupported schema version: 3"`. -/
theorem c7_worker_catches_handler_errors (item : WorkItem) (t0 tMid t1 : Rat) :
    (workerStep item t0 tMid t1).1 = item.client ∧
    lookupEntry (workerStep item t0 tMid t1).2 "correlation_id" =
      some (Value.str item.corr) ∧
    (∀ e, processRequest tMid item.payload = Except.error e →
      (workerStep item t0 tMid t1).2 =
        Value.dict [("status", Value.str "error"),
                    ("message", Value.str e),
                    ("correlation_id", Value.str item.corr),
                    ("processing_time", Value.float (.finite (t1 - t0)))]) ∧
    validateMatrixModel payloadV3 = Except.error "Unsupported schema version: 3" ∧
    (∀ c k, workerStep ⟨c, k, payloadV3⟩ t0 tMid t1 =
      (c, Value.dict [("status", Value.str "error"),
                      ("message", Value.str "Unsupported schema version: 3"),
                      ("correlation_id", Value.str k),
                      ("processing_time", Value.float (.finite (t1 - t0)))])) := by
  refine ⟨?_, ?_, ?_, rfl, ?_⟩
  · cases h : processRequest tMid item.payload <;> simp [workerStep, h]
  · cases h : processRequest tMid item.payload with
    | ok r =>
      obtain ⟨s, shape, nameV, sv, hr⟩ := processRequest_ok_shape tMid item.payload r h
      simp [workerStep, h, hr, successResponse, dictAssign, dictSet, lookupEntry, lookupKey]
    | error e =>
      simp [workerStep, h, lookupEntry, lookupKey]
  · intro e he
    simp [workerStep, he]
  · intro c k
    rfl

/-- C7 witness: the schema-version-3 payload, dequeued for client `"c"`
with correlation id `"k"`, is answered with the error response carrying
that correlation id and the exact message. -/
theorem c7_worker_catches_handler_errors_witness :
    lookupEntry (workerStep ⟨"c", "k", payloadV3⟩ 1 2 3).2 "correlation_id" =
      some (Value.str "k") ∧
    (workerStep ⟨"c", "k", payloadV3⟩ 1 2 3).2 =
      Value.dict [("status", Value.str "error"),
                  ("message", Value.str "Unsupported schema version: 3"),
                  ("correlation_id", Value.str "k"),
                  ("processing_time", Value.float (.finite (3 - 1)))] := by
  have h := c7_worker_catches_handler_errors ⟨"c", "k", payloadV3⟩ 1 2 3
  exact ⟨h.2.1, h.2.2.1 "Unsupported schema version: 3" rfl⟩

/-- C8 counterexample: the byte `0xFF` is not valid UTF-8, hence certainly
not valid JSON, yet the broker sends *nothing* for the four-part message
carrying it: `payload.decode("utf-8")` raises `UnicodeDecodeError`, which
the `except json.JSONDecodeError` clause does not catch — the outer
catch-all logs it and the claim's promised error envelope is never sent. -/
theorem c8_invalid_utf8_dropped_silently :
    utf8Decode [255] = none ∧
    handleFrontend c8state [[65], [], [66], [255]] 0 0 = (c8state, []) :=
  ⟨rfl, rfl⟩

/-- C8 amended: a message with fewer than four parts is dropped silently;
a four-part message whose payload *decodes as UTF-8 text* but fails JSON
parsing is answered immediately with an `"Invalid JSON"` error envelope
echoing the correlation id, with nothing enqueued and no metric change; a
payload that is not valid UTF-8 is dropped silently like a malformed
envelope (its decode error bypasses the JSON-error handler). -/
theorem c8_malformed_and_invalid_json (st : BrokerState) (now : Rat) (idNum : Nat) :
    (∀ parts : List (List Nat), parts.length < 4 →
      handleFrontend st parts now idNum = (st, [])) ∧
    (∀ cid emptyP corr payload extra (text corrS : String),
      utf8Decode payload = some text → parseJson text = none →
      utf8Decode corr = some corrS →
      handleFrontend st (cid :: emptyP :: corr :: payload :: extra) now idNum =
        (st, [⟨cid, errorResponseBody corrS "Invalid JSON" now⟩])) ∧
    (∀ cid emptyP corr payload extra,
      utf8Decode payload = none →
      handleFrontend st (cid :: emptyP :: corr :: payload :: extra) now idNum =
        (st, [])) := by
  refine ⟨?_, ?_, ?_⟩
  · intro parts hlen
    rcases parts with _ | ⟨a, _ | ⟨b, _ | ⟨c, _ | ⟨d, rest⟩⟩⟩⟩
    · rfl
    · rfl
    · rfl
    · rfl
    · simp only [List.length_cons] at hlen
      omega
  · intro cid emptyP corr payload extra text corrS hpl hparse hcorr
    simp only [handleFrontend, hpl, hparse, hcorr]
  · intro cid emptyP corr payload extra hpl
    simp only [handleFrontend, hpl]

/-- C8 witness for the amended statement: a two-part message is dropped;
the unparsable text payload `notjson` is answered with the `"Invalid JSON"`
envelope carrying the correlation id `B`, and the state is unchanged. -/
theorem c8_malformed_and_invalid_json_witness :
    handleFrontend c8state [[7], [8]] 0 0 = (c8state, []) ∧
    handleFrontend c8state [[65], [], [66], utf8Encode "notjson"] 0 0 =
      (c8state, [⟨[65], errorResponseBody "B" "Invalid JSON" 0⟩]) := by
  have h := c8_malformed_and_invalid_json c8state 0 0
  exact ⟨h.1 [[7], [8]] (by decide),
         h.2.1 [65] [] [66] (utf8Encode "notjson") [] "notjson" "B" rfl rfl rfl⟩

/-- C9: the worker's end-to-end answer for the documented scenario payload:
status `"success"`, `matrix_sum` the float 10.0 (the numeric sum of the
matrix entries), `model_checked` `"TestModel"`, `schema_version_used` 1 —
plus the timestamp, shape, dtype, correlation id and processing time the
source always attaches. -/
theorem c9_end_to_end_success (c k : String) (t0 tMid t1 : Rat) :
    workerStep ⟨c, k, payloadC9⟩ t0 tMid t1 =
      (c, Value.dict [("status", Value.str "success"),
                      ("matrix_sum", Value.float (.finite 10)),
                      ("model_checked", Value.str "TestModel"),
                      ("schema_version_used", Value.int 1),
                      ("timestamp", Value.float (.finite tMid)),
                      ("matrix_shape", Value.list [Value.int 2, Value.int 2]),
                      ("data_type", Value.str "float64"),
                      ("correlation_id", Value.str k),
                      ("processing_time", Value.float (.finite (t1 - t0)))]) := by
  rfl

/-- C10 counterexample: the empty string is not one of the three supported
format names, yet `serialize` does not fall back to JSON for it: Python's
`format_override or self._select_format(data)` treats `""` as falsy, so the
format is selected automatically — for a 1500-element payload that is
MessagePack, tag 2, not the claimed JSON tag 1. -/
theorem c10_empty_override_not_json :
    ¬("" = "json" ∨ "" = "msgpack" ∨ "" = "protobuf") ∧
    serializedTag defaultCodecConfig c10big (some "") = some 2 := by
  refine ⟨by decide, ?_⟩
  have hest : estimatePayloadSize c10big = 1500 := by
    rw [c10big, estimatePayloadSize_list, List.length_replicate]
  have hsel : selectFormat defaultCodecConfig c10big = "msgpack" := by
    norm_num [selectFormat, defaultCodecConfig, hest]
  have hser : serialize defaultCodecConfig c10big (some "") =
      Except.ok (2 :: serializeMsgpackPy c10big) := by
    simp [serialize, resolveFormat, hsel, serializeBody, formatToId]
  simp [serializedTag, hser]

/-- C10 amended: for every *non-empty* `format_override` outside the three
supported names, the `ValueError` raised inside `serialize`'s dispatch is
swallowed by its fallback path, and the result is the JSON tag byte 1
followed by the JSON body — `serialize` does not raise.  (The empty string
instead behaves as "no override": automatic selection, see the
counterexample.) -/
theorem c10_unknown_override_falls_back_to_json (v : Value) (fmt : String)
    (h0 : fmt ≠ "") (h1 : fmt ≠ "json") (h2 : fmt ≠ "msgpack")
    (h3 : fmt ≠ "protobuf") :
    serialize defaultCodecConfig v (some fmt) = Except.ok (1 :: serializeJsonPy v) := by
  simp [serialize, resolveFormat, serializeBody, formatToId, h0, h1, h2, h3]

/-- C10 witness: override `"xml"` on `None` yields the JSON-tagged JSON
body `b"\x01null"`. -/
theorem c10_unknown_override_falls_back_to_json_witness :
    serialize defaultCodecConfig Value.null (some "xml") =
      Except.ok (1 :: serializeJsonPy Value.null) ∧
    serializeJsonPy Value.null = [110, 117, 108, 108] := by
  refine ⟨c10_unknown_override_falls_back_to_json Value.null "xml"
    (by decide) (by decide) (by decide) (by decide), ?_⟩
  have hj : jsonEncode Value.null = "null" := by simp [jsonEncode]
  rw [serializeJsonPy, hj]
  rfl
